import Mathlib

/-!
The package bone: a shallow embedding of the request pipeline and the service registry

The Go sources embedded here are `bone.go`, `response.go` and the example binding
`examples/fortnite`.  Pointers that the code dereferences are modelled as `Option`
(`none` is Go's `nil`); a nil dereference is the outcome `Outcome.panic`.  Functions of
the Go standard library (`net/url`, `net/http`, `encoding/json`) are collaborators
collected in the structure `Std`.
-/

namespace bone

/-! ## Values -/

/-- Outcome of running a Go function: a normal return, or a run-time panic that
unwinds to the caller instead of returning. -/
inductive Outcome (α : Type) where
  | ret (a : α)
  | panic (msg : String)
  deriving DecidableEq, Repr

/-- The message of Go's nil pointer dereference. -/
def nilDeref : String := "invalid memory address or nil pointer dereference"

/-- An `http.Header`: canonical header names with their value lists. -/
abbrev Header := List (String × List String)

/-- An `*http.Request` as far as the code reads or writes it. -/
structure Request (U : Type) where
  Method : String
  URL : Option U
  Header : Header
  Body : String
  deriving DecidableEq, Repr

/-- An `*http.Response` as far as the code reads it.  The body stream is mutable and is
carried next to the response, see `Body`. -/
structure Response (U : Type) where
  StatusCode : Int
  Request : Option (Request U)
  deriving DecidableEq, Repr

/-- The state of a response body (`io.ReadCloser`): the bytes not yet read, the error a
read meets after them, what `Close` returns, and how often `Close` was called. -/
structure Body where
  data : String
  readErr : Option String
  closeErr : Option String
  closed : Nat
  deriving DecidableEq, Repr

/-- The error values that occur: plain errors (`errors.New`, `fmt.Errorf`, errors of the
standard library), `*bone.ErrorResponse`, and `*fortnite.ErrorResponse`. -/
inductive Err (U : Type) where
  | text (s : String)
  | errorResponse (Response : Response U)
  | fortniteErrorResponse (Response : Response U) (Message : String)
  deriving DecidableEq, Repr

/-- `ResponseChecker = func(r *http.Response) error`; a checker may read the body. -/
abbrev ResponseChecker (U : Type) := Response U → Body → Option (Err U) × Body

/-- `ResponseDecode = func(r io.Reader, v interface{}) error`: reads the body and
writes the destination. -/
abbrev ResponseDecode (δ : Type) := Body → δ → Option String × Body × δ

/-- What the code uses of an `*http.Client`: `Do`. -/
abbrev HTTPClient (U : Type) := Request U → Except String (Response U × Body)

/-- The collaborators from the Go standard library. -/
structure Std (U β : Type) where
  /-- The function `url.Parse`. -/
  parse : String → Except String U
  /-- The field `Scheme` of a URL. -/
  scheme : U → String
  /-- The result of `ResolveReference` for a reference with a scheme (the receiver is not read). -/
  resolveAbsolute : U → U
  /-- The result of `ResolveReference` on a non-nil receiver for a reference without a scheme. -/
  resolveRelative : U → U → U
  /-- The method `String` of a URL. -/
  urlString : U → String
  /-- The JSON encoding `json.NewEncoder(buf).Encode(body)`: the bytes written, or the error. -/
  encode : β → Except String String
  /-- The validation done by `http.NewRequest`: the method and URL of the new request, or the error. -/
  newRequest : String → String → Except String (String × U)
  /-- The function `textproto.CanonicalMIMEHeaderKey`, applied by `Header.Set` and `Header.Get`. -/
  canonicalMIMEHeaderKey : String → String
  /-- The variable `http.DefaultClient`. -/
  defaultClient : HTTPClient U

/-- DefaultClient is the default Client and is used API request. -/
structure DefaultClient (U σ : Type) where
  client : Option (HTTPClient U)
  BaseURL : Option U
  UserAgent : String
  Services : Option (List (String × σ))
  TokenKey : String
  Token : String
  CheckResponse : Option (ResponseChecker U)

/-! ## Go maps -/

/-- Reading `m[k]` with the comma-ok form; a nil map has no entry. -/
def mapGet {σ : Type} (m : Option (List (String × σ))) (k : String) : Option σ :=
  match m with
  | none => none
  | some es => (es.find? (fun e => e.1 == k)).map (fun e => e.2)

/-- The assignment `m[k] = v` on a non-nil map. -/
def mapSet {σ : Type} (es : List (String × σ)) (k : String) (v : σ) : List (String × σ) :=
  (k, v) :: es.filter (fun e => !(e.1 == k))

/-! ## bone.go: the service registry -/

/-- GetService gets a API service. -/
def DefaultClient.GetService {U σ : Type} (c : DefaultClient U σ) (name : String) :
    Option σ × Option (Err U) :=
  match mapGet c.Services name with
  | none => (none, some (Err.text (name ++ " does not exist")))
  | some s => (some s, none)

/-- SetService sets a API service. -/
def DefaultClient.SetService {U σ : Type} (c : DefaultClient U σ) (name : String) (s : σ) :
    DefaultClient U σ :=
  let c1 := if c.Services.isNone then { c with Services := some [] } else c
  match c1.Services with
  | none => c1
  | some es => { c1 with Services := some (mapSet es name s) }

/-! ## http.Header -/

/-- The method `Set` of `http.Header`: the canonical key gets the single value. -/
def headerSet {U β : Type} (E : Std U β) (h : Header) (key value : String) : Header :=
  mapSet h (E.canonicalMIMEHeaderKey key) [value]

/-- The value list stored for a header name, if any. -/
def headerValues {U β : Type} (E : Std U β) (h : Header) (key : String) : Option (List String) :=
  mapGet (some h) (E.canonicalMIMEHeaderKey key)

/-- The method `Get` of `http.Header`: the first value of the canonical key, or `""`. -/
def headerGet {U β : Type} (E : Std U β) (h : Header) (key : String) : String :=
  match headerValues E h key with
  | some (v :: _) => v
  | _ => ""

/-! ## response.go -/

/-- The verb `%d` on an `int`. -/
def fmtD (n : Int) : String :=
  if n < 0 then "-" ++ Nat.repr n.natAbs else Nat.repr n.toNat

/-- The verb `%v` on a `*url.URL`: its `String()`, and `<nil>` for a nil pointer. -/
def fmtURL {U β : Type} (E : Std U β) (u : Option U) : String :=
  match u with
  | none => "<nil>"
  | some x => E.urlString x

/-- CheckResponse checks the API response for errors, and returns them if present. -/
def CheckResponse {U : Type} : ResponseChecker U := fun r b =>
  if r.StatusCode ≥ 200 ∧ r.StatusCode ≤ 299 then (none, b)
  else (some (Err.errorResponse r), b)

/-- The method `Error` of `*bone.ErrorResponse`. -/
def ErrorResponse.Error {U β : Type} (E : Std U β) (Response : Response U) : Outcome String :=
  match Response.Request with
  | none => Outcome.panic nilDeref
  | some q =>
    Outcome.ret ("fail to request: " ++ q.Method ++ " " ++ fmtURL E q.URL ++ ": "
      ++ fmtD Response.StatusCode)

/-- The method `Close` of the body: its result, and the body after the call. -/
def Body.Close {U : Type} (b : Body) : Option (Err U) × Body :=
  (b.closeErr.map Err.text, { b with closed := b.closed + 1 })

/-- The function `ioutil.ReadAll` on the body: the bytes read, the error, the body after. -/
def Body.ReadAll (b : Body) : String × Option String × Body :=
  (b.data, b.readErr, { b with data := "" })

/-! ## bone.go: configuration -/

/-- SetResponseChecker sets CheckResponse. -/
def DefaultClient.SetResponseChecker {U σ : Type} (c : DefaultClient U σ)
    (_f : Option (ResponseChecker U)) : DefaultClient U σ :=
  { c with CheckResponse := some bone.CheckResponse }

/-- SetClient sets http client. -/
def DefaultClient.SetClient {U σ β : Type} (E : Std U β) (c : DefaultClient U σ)
    (httpClient : Option (HTTPClient U)) : DefaultClient U σ :=
  let c1 :=
    match httpClient with
    | some h => { c with client := some h }
    | none => if c.client.isNone then { c with client := some E.defaultClient } else c
  c1.SetResponseChecker (some bone.CheckResponse)

/-- SetUserAgent sets the user agent. -/
def DefaultClient.SetUserAgent {U σ : Type} (c : DefaultClient U σ) (ua : String) :
    DefaultClient U σ :=
  if ua ≠ "" then { c with UserAgent := ua } else c

/-- SetBaseURL sets the base URL. -/
def DefaultClient.SetBaseURL {U σ β : Type} (E : Std U β) (c : DefaultClient U σ)
    (bu : String) : DefaultClient U σ × Option (Err U) :=
  match E.parse bu with
  | Except.error e => (c, some (Err.text e))
  | Except.ok u => ({ c with BaseURL := some u }, none)

/-- ClientOpt are options for New. -/
abbrev ClientOpt (U σ : Type) := DefaultClient U σ → DefaultClient U σ × Option (Err U)

/-- The loop of `NewClient` over the options: it stops at the first error. -/
def applyOpts {U σ : Type} (c : DefaultClient U σ) :
    List (ClientOpt U σ) → DefaultClient U σ × Option (Err U)
  | [] => (c, none)
  | opt :: opts =>
    match opt c with
    | (c1, some e) => (c1, some e)
    | (c1, none) => applyOpts c1 opts

/-- NewClient returns a new cunstom API client. -/
def NewClient {U σ β : Type} (E : Std U β) (v : DefaultClient U σ)
    (httpClient : Option (HTTPClient U)) (opts : List (ClientOpt U σ)) :
    DefaultClient U σ × Option (Err U) :=
  applyOpts (v.SetClient E httpClient) opts

/-! ## bone.go: the request builder -/

/-- The method `ResolveReference` of `*url.URL`: a reference without a scheme takes the
scheme of the receiver, which is a nil dereference when the receiver is nil; a reference
with a scheme is resolved without reading the receiver. -/
def ResolveReference {U β : Type} (E : Std U β) (u : Option U) (ref : U) : Outcome U :=
  if E.scheme ref = "" then
    match u with
    | none => Outcome.panic nilDeref
    | some b => Outcome.ret (E.resolveRelative b ref)
  else Outcome.ret (E.resolveAbsolute ref)

/-- The header writes of `NewRequest`: the user agent, the token when both its name and
its value are set, then the entries of `headers` in the order the `range` visits them. -/
def applyHeaders {U σ β : Type} (E : Std U β) (c : DefaultClient U σ)
    (headers : Option (List (String × String))) (h0 : Header) : Header :=
  let h1 := headerSet E h0 "User-Agent" c.UserAgent
  let h2 := if c.TokenKey ≠ "" ∧ c.Token ≠ "" then headerSet E h1 c.TokenKey c.Token else h1
  match headers with
  | none => h2
  | some kvs => kvs.foldl (fun h kv => headerSet E h kv.1 kv.2) h2

/-- The method `NewRequest` of `DefaultClient`. -/
def DefaultClient.NewRequest {U σ β : Type} (E : Std U β) (c : DefaultClient U σ)
    (method urlStr : String) (headers : Option (List (String × String)))
    (body : Option β) : Outcome (Option (Request U) × Option (Err U)) :=
  match E.parse urlStr with
  | Except.error e => Outcome.ret (none, some (Err.text e))
  | Except.ok rel =>
    match ResolveReference E c.BaseURL rel with
    | Outcome.panic m => Outcome.panic m
    | Outcome.ret u =>
      let encoded : Except String String :=
        match body with
        | none => Except.ok ""
        | some b => E.encode b
      match encoded with
      | Except.error e => Outcome.ret (none, some (Err.text e))
      | Except.ok buf =>
        match E.newRequest method (E.urlString u) with
        | Except.error e => Outcome.ret (none, some (Err.text e))
        | Except.ok (m, ru) =>
          let req : Request U := { Method := m, URL := some ru, Header := [], Body := buf }
          Outcome.ret (some { req with Header := applyHeaders E c headers req.Header }, none)

/-! ## bone.go: the dispatcher -/

/-- What a call of `Do` leaves behind: the two results, the body (when the transport
delivered one), the destination, and the number of calls of the decoder. -/
structure DoResult (U δ : Type) where
  response : Option (Response U)
  err : Option (Err U)
  body : Option Body
  v : Option δ
  decodes : Nat
  deriving DecidableEq, Repr

/-- DoRequestWithClient submits an HTTP request using the specified client. -/
def DoRequestWithClient {U : Type} (client : HTTPClient U) (req : Request U) :
    Except String (Response U × Body) :=
  client req

/-- The deferred function of `Do`: the body is closed, and the result of `Close` becomes
the error when there is none yet. -/
def deferredClose {U δ : Type} (response : Option (Response U)) (err : Option (Err U))
    (b : Body) (v : Option δ) (decodes : Nat) : DoResult U δ :=
  let (rerr, b1) := (Body.Close b : Option (Err U) × Body)
  { response := response, err := if err.isNone then rerr else err, body := some b1,
    v := v, decodes := decodes }

/-- Do requests API.  The context argument is never read and is left out. -/
def Do {U δ : Type} (c : Option (HTTPClient U)) (req : Request U)
    (decode : Option (ResponseDecode δ)) (rc : Option (ResponseChecker U)) (v : Option δ) :
    Outcome (DoResult U δ) :=
  match c with
  | none => Outcome.panic nilDeref
  | some client =>
    match DoRequestWithClient client req with
    | Except.error e =>
      Outcome.ret { response := none, err := some (Err.text e), body := none, v := v, decodes := 0 }
    | Except.ok (resp, b0) =>
      match rc with
      | none => Outcome.panic nilDeref
      | some check =>
        match check resp b0 with
        | (some e, b1) => Outcome.ret (deferredClose (some resp) (some e) b1 v 0)
        | (none, b1) =>
          match v with
          | none => Outcome.ret (deferredClose (some resp) none b1 none 0)
          | some d =>
            match decode with
            | none => Outcome.panic nilDeref
            | some dec =>
              match dec b1 d with
              | (some e, b2, d1) =>
                Outcome.ret (deferredClose none (some (Err.text e)) b2 (some d1) 1)
              | (none, b2, d1) => Outcome.ret (deferredClose (some resp) none b2 (some d1) 1)

/-- The method `Do` of `DefaultClient`. -/
def DefaultClient.Do {U σ δ : Type} (c : DefaultClient U σ) (req : Request U)
    (decode : Option (ResponseDecode δ)) (v : Option δ) : Outcome (DoResult U δ) :=
  bone.Do c.client req decode c.CheckResponse v

/-- The method `Error` of an error value. -/
def Err.Error {U β : Type} (E : Std U β) : Err U → Outcome String
  | Err.text s => Outcome.ret s
  | Err.errorResponse r => ErrorResponse.Error E r
  | Err.fortniteErrorResponse r m =>
    match r.Request with
    | none => Outcome.panic nilDeref
    | some q =>
      Outcome.ret (q.Method ++ " " ++ fmtURL E q.URL ++ ": " ++ fmtD r.StatusCode ++ " " ++ m)

end bone

/-! ## examples/fortnite -/

namespace fortnite

open bone

def version : String := "0.0.1"

def defaultBaseURL : String := "https://api.fortnitetracker.com/v1/"

def userAgent : String := "go-fortnite/" ++ version

def tokenKey : String := "TRN-Api-Key"

/-- The type `ProfileService`.  Its field `client` points back to the client it was bound
to; the flag records whether it holds a `*bone.DefaultClient` (the only implementation of
`bone.Client`), and the functions below receive that client explicitly. -/
structure ProfileService where
  client : Bool
  deriving DecidableEq, Repr

/-- The method `SetClient` of `ProfileService`. -/
def ProfileService.SetClient (_s : ProfileService) : ProfileService :=
  { client := true }

/-- CheckResponse checks the API response for errors, and returns them if present.
`jsonMessage data` is the value `json.Unmarshal` stores in the field `Message`, if any. -/
def CheckResponse {U : Type} (jsonMessage : String → Option String) : ResponseChecker U :=
  fun r b =>
    if r.StatusCode ≥ 200 ∧ r.StatusCode ≤ 299 then (none, b)
    else
      let (data, err, b1) := b.ReadAll
      let Message :=
        if err.isNone ∧ data.length > 0 then (jsonMessage data).getD "" else ""
      (some (Err.fortniteErrorResponse r Message), b1)

/-- The constructor `New`; the error of `SetBaseURL` is dropped as in the source. -/
def New {U β : Type} (E : Std U β) (jsonMessage : String → Option String)
    (httpClient : Option (HTTPClient U)) (token : String) :
    Option (DefaultClient U ProfileService) × Option (Err U) :=
  let c0 : DefaultClient U ProfileService :=
    { client := none, BaseURL := none, UserAgent := "", Services := none,
      TokenKey := tokenKey, Token := token, CheckResponse := none }
  match NewClient E c0 httpClient [] with
  | (_, some e) => (none, some e)
  | (c1, none) =>
    let c2 := (c1.SetBaseURL E defaultBaseURL).1
    let c3 := c2.SetUserAgent userAgent
    let c4 := c3.SetResponseChecker (some (CheckResponse jsonMessage))
    let ps := ProfileService.SetClient { client := false }
    (some (c4.SetService "profile" ps), none)

/-- The method `Stats` of `ProfileService`; `c` is the client the service points to,
`jsonDecode` is `bone.JSONDecode` and `zero` the zero value of the result. -/
def ProfileService.Stats {U β δ : Type} (E : Std U β) (s : ProfileService)
    (c : DefaultClient U ProfileService) (jsonDecode : ResponseDecode δ) (zero : δ)
    (platform nickname : String) : Outcome (δ × Option (Err U)) :=
  if s.client = false then Outcome.ret (zero, some (Err.text "client is invalid"))
  else
    match c.NewRequest E "GET" ("profile/" ++ platform ++ "/" ++ nickname) none none with
    | Outcome.panic m => Outcome.panic m
    | Outcome.ret (_, some e) => Outcome.ret (zero, some e)
    | Outcome.ret (none, none) => Outcome.panic nilDeref
    | Outcome.ret (some req, none) =>
      match c.Do req (some jsonDecode) (some zero) with
      | Outcome.panic m => Outcome.panic m
      | Outcome.ret r =>
        match r.err with
        | some e => Outcome.ret (r.v.getD zero, some e)
        | none => Outcome.ret (r.v.getD zero, none)

end fortnite

/-! ## A small instance of the standard library

`sample` agrees with `net/url`, `net/http` and `net/textproto` on references of the forms
`scheme://host/path` and `path` built from letters, digits, `.`, `-`, `_` and `/`, without
dot segments; it rejects every other string.  It serves the concrete scenarios below. -/

namespace sample

open bone

/-- The fields of a `url.URL` that occur in the scenarios. -/
structure URL where
  Scheme : String
  Host : String
  Path : String
  deriving DecidableEq, Repr

/-- The characters the instance accepts in a reference. -/
def plainChar (c : Char) : Bool :=
  c.isAlphanum || c == '.' || c == '-' || c == '_' || c == '/'

/-- The function `getScheme` of `net/url` on the remaining characters; `seen` holds the
characters read so far, in reverse. -/
def getScheme (seen : List Char) : List Char → Except String (List Char × List Char)
  | [] => Except.ok ([], seen.reverse)
  | c :: cs =>
    if c.isAlpha then getScheme (c :: seen) cs
    else if c.isDigit || c == '+' || c == '-' || c == '.' then
      if seen.isEmpty then Except.ok ([], c :: cs) else getScheme (c :: seen) cs
    else if c == ':' then
      if seen.isEmpty then Except.error "missing protocol scheme"
      else Except.ok (seen.reverse, cs)
    else Except.ok ([], seen.reverse ++ c :: cs)

/-- The authority and the path of what follows the scheme. -/
def splitAuthority : List Char → List Char × List Char
  | '/' :: '/' :: rest => (rest.takeWhile (fun c => c != '/'), rest.dropWhile (fun c => c != '/'))
  | rest => ([], rest)

/-- The function `url.Parse` on the supported references. -/
def parse (s : String) : Except String URL :=
  match getScheme [] s.toList with
  | Except.error e => Except.error e
  | Except.ok (sch, rest) =>
    if rest.all plainChar then
      let (host, path) := splitAuthority rest
      Except.ok { Scheme := String.mk (sch.map Char.toLower), Host := String.mk host, Path := String.mk path }
    else Except.error "unsupported reference"

/-- The directory part of a path: everything up to and including the last slash. -/
def dirOf (p : List Char) : List Char :=
  (p.reverse.dropWhile (fun c => c != '/')).reverse

/-- The method `ResolveReference` for a reference with a scheme. -/
def resolveAbsolute (ref : URL) : URL := ref

/-- The method `ResolveReference` on a non-nil receiver for a reference without a scheme. -/
def resolveRelative (u ref : URL) : URL :=
  if ref.Host ≠ "" then { ref with Scheme := u.Scheme }
  else if ref.Path = "" then u
  else if ref.Path.toList.head? = some '/' then { u with Path := ref.Path }
  else { u with Path := String.mk (dirOf u.Path.toList ++ ref.Path.toList) }

/-- The method `String` of a URL. -/
def urlString (u : URL) : String :=
  (if u.Scheme ≠ "" then u.Scheme ++ ":" else "")
    ++ (if (u.Scheme ≠ "" ∨ u.Host ≠ "") ∧ (u.Host ≠ "" ∨ u.Path ≠ "") then "//" else "")
    ++ u.Host
    ++ (if u.Path ≠ "" ∧ u.Path.toList.head? ≠ some '/' ∧ u.Host ≠ "" then "/" else "")
    ++ u.Path

/-- The function `http.NewRequest`: an empty method means GET, a method must be a token,
and the URL must parse. -/
def newRequest (method url : String) : Except String (String × URL) :=
  let m := if method = "" then "GET" else method
  if m.toList.all Char.isAlpha then
    match parse url with
    | Except.error e => Except.error e
    | Except.ok u => Except.ok (m, u)
  else Except.error "net/http: invalid method"

/-- The bytes a MIME header name may contain (`validHeaderFieldByte`). -/
def validHeaderFieldByte (c : Char) : Bool :=
  c.isAlphanum ||
    [33, 35, 36, 37, 38, 39, 42, 43, 45, 46, 94, 95, 96, 124, 126].contains c.toNat

/-- The rewriting loop of `canonicalMIMEHeaderKey`: upper case at the start and after a
dash, lower case elsewhere. -/
def canonChars : Bool → List Char → List Char
  | _, [] => []
  | upper, c :: cs =>
    let d := if upper && c.isLower then c.toUpper
      else if !upper && c.isUpper then c.toLower else c
    d :: canonChars (d == '-') cs

/-- The function `textproto.CanonicalMIMEHeaderKey`: a name with a byte that is not
valid in a header name is returned unchanged. -/
def canonicalMIMEHeaderKey (s : String) : String :=
  if s.toList.all validHeaderFieldByte then String.mk (canonChars true s.toList) else s

/-- The instance: no request body is encoded, and the default client refuses. -/
def std : Std URL Unit where
  parse := parse
  scheme := fun u => u.Scheme
  resolveAbsolute := resolveAbsolute
  resolveRelative := resolveRelative
  urlString := urlString
  encode := fun _ => Except.ok "null\n"
  newRequest := newRequest
  canonicalMIMEHeaderKey := canonicalMIMEHeaderKey
  defaultClient := fun _ => Except.error "no network"

end sample

/-! ## Scenario values -/

namespace scenario

open bone

/-- A client on which nothing was ever set. -/
def blank : DefaultClient sample.URL fortnite.ProfileService :=
  { client := none, BaseURL := none, UserAgent := "", Services := none,
    TokenKey := "", Token := "", CheckResponse := none }

/-- A response with status 500 that carries no request. -/
def bare500 : Response sample.URL := { StatusCode := 500, Request := none }

/-- An unread empty body whose `Close` succeeds. -/
def emptyBody : Body := { data := "", readErr := none, closeErr := none, closed := 0 }

/-- A checker that accepts every response. -/
def acceptAll : ResponseChecker sample.URL := fun _ b => (none, b)

/-- The request `GET https://api.fortnitetracker.com/v1/profile/pc/ninja`. -/
def statsRequest : Request sample.URL :=
  { Method := "GET",
    URL := some { Scheme := "https", Host := "api.fortnitetracker.com", Path := "/v1/profile/pc/ninja" },
    Header := [], Body := "" }

/-- The response with status 404 to `statsRequest`. -/
def notFound : Response sample.URL := { StatusCode := 404, Request := some statsRequest }

/-- A transport that answers every request with `notFound` and the given body. -/
def answer404 (b : Body) : HTTPClient sample.URL := fun _ => Except.ok (notFound, b)

/-- A transport that answers every request with status 200 and the given body. -/
def answer200 (b : Body) : HTTPClient sample.URL :=
  fun req => Except.ok ({ StatusCode := 200, Request := some req }, b)

/-- An unread empty body whose `Close` fails. -/
def failingClose : Body :=
  { data := "", readErr := none, closeErr := some "close failed", closed := 0 }

/-- A decoder that stores the length of the body in the destination. -/
def lengthDecode : ResponseDecode Nat := fun b _ => (none, { b with data := "" }, b.data.length)

/-- The JSON body with the single member `message: not found`, unread, whose `Close`
succeeds. -/
def notFoundBody : Body :=
  { data := "\x7b\"message\":\"not found\"\x7d", readErr := none, closeErr := none, closed := 0 }

/-- A transport that answers every request with status 404 and `notFoundBody`. -/
def server404 : HTTPClient sample.URL :=
  fun req => Except.ok ({ StatusCode := 404, Request := some req }, notFoundBody)

/-- The member `message` of a JSON body, for the one body of the scenario. -/
def jsonMessage (data : String) : Option String :=
  if data = notFoundBody.data then some "not found" else none

/-- The client `fortnite.New(httpClient, token)`, or `blank` should `New` fail. -/
def tracker (httpClient : Option (HTTPClient sample.URL)) (token : String) :
    DefaultClient sample.URL fortnite.ProfileService :=
  match fortnite.New sample.std jsonMessage httpClient token with
  | (some c, none) => c
  | _ => blank

/-- The request that `NewRequest` builds on `tracker` for GET `profile/pc/ninja`, with
the given header. -/
def statsRequestWith (header : Header) : Request sample.URL :=
  { statsRequest with Header := header }

/-- The list starts with the pattern. -/
def startsWith : List Char → List Char → Bool
  | _, [] => true
  | [], _ :: _ => false
  | c :: cs, p :: ps => c == p && startsWith cs ps

/-- The list contains the pattern as a contiguous run. -/
def containsRun : List Char → List Char → Bool
  | [], p => startsWith [] p
  | c :: cs, p => startsWith (c :: cs) p || containsRun cs p

/-- The function `strings.Contains`. -/
def contains (s sub : String) : Bool := containsRun s.toList sub.toList

/-- The call `Stats(pc, ninja)` on the profile service of a client: its error text,
when it returns an error whose `Error()` returns. -/
def statsErrorText (c : DefaultClient sample.URL fortnite.ProfileService) : Option String :=
  match c.GetService "profile" with
  | (some ps, _) =>
    match ps.Stats sample.std c lengthDecode 0 "pc" "ninja" with
    | Outcome.ret (_, some e) =>
      match Err.Error sample.std e with
      | Outcome.ret text => some text
      | Outcome.panic _ => none
    | _ => none
  | _ => none


end scenario

/-! ## The service registry -/

namespace bone

/-- The name is a key of the map `Services`. -/
def registered {U σ : Type} (c : DefaultClient U σ) (name : String) : Prop :=
  match c.Services with
  | none => False
  | some es => name ∈ es.map Prod.fst

instance registeredDecidable {U σ : Type} (c : DefaultClient U σ) (name : String) :
    Decidable (registered c name) := by
  unfold registered
  split <;> infer_instance

theorem mapGet_mapSet {σ : Type} (es : List (String × σ)) (k : String) (v : σ) :
    mapGet (some (mapSet es k v)) k = some v := by
  simp [mapGet, mapSet]

theorem mapGet_mapSet_ne {σ : Type} (es : List (String × σ)) (k k1 : String) (v : σ)
    (h : k ≠ k1) : mapGet (some (mapSet es k v)) k1 = mapGet (some es) k1 := by
  simp only [mapGet, mapSet]
  rw [List.find?_cons_of_neg]
  · congr 1
    induction es with
    | nil => rfl
    | cons e es ih =>
      by_cases hk : e.1 = k
      · have hk1 : ¬ e.1 = k1 := fun h1 => h (hk.symm.trans h1)
        have hb : (e.1 == k) = true := by simpa using hk
        have hb1 : (e.1 == k1) = false := by simpa using hk1
        simp only [List.filter_cons, List.find?_cons, hb, hb1, Bool.not_true]
        simpa using ih
      · have hb : (e.1 == k) = false := by simpa using hk
        simp only [List.filter_cons, List.find?_cons, hb, Bool.not_false, if_true]
        cases hb1 : (e.1 == k1)
        · simpa using ih
        · rfl
  · simpa using h

theorem mapGet_eq_none_iff {σ : Type} (es : List (String × σ)) (k : String) :
    mapGet (some es) k = none ↔ k ∉ es.map Prod.fst := by
  simp only [mapGet, Option.map_eq_none', List.find?_eq_none]
  constructor
  · intro h hk
    obtain ⟨e, he, rfl⟩ := List.mem_map.1 hk
    exact h e he (by simp)
  · intro h e he hk
    exact h (List.mem_map.2 ⟨e, he, by simpa using hk⟩)

theorem SetService_Services {U σ : Type} (c : DefaultClient U σ) (n : String) (s : σ) :
    (c.SetService n s).Services = some (mapSet (c.Services.getD []) n s) := by
  cases h : c.Services <;> simp [DefaultClient.SetService, h]

theorem GetService_SetService {U σ : Type} (c : DefaultClient U σ) (n : String) (s : σ) :
    (c.SetService n s).GetService n = (some s, none) := by
  simp [DefaultClient.GetService, SetService_Services, mapGet_mapSet]

/-- C1: after `SetService n s`, `GetService n` returns `s` and a nil error, also on a
client whose `Services` map is nil; a later registration of the same name wins. -/
theorem C1_GetService_after_SetService {U σ : Type} (c : DefaultClient U σ) (n : String)
    (s s1 s2 : σ) :
    (c.SetService n s).GetService n = (some s, none) ∧
      ((c.SetService n s1).SetService n s2).GetService n = (some s2, none) :=
  ⟨GetService_SetService c n s, GetService_SetService _ n s2⟩

/-- C2: `GetService` fails exactly on the names that are not registered (a nil map
registers none), and then returns no service and the error `n does not exist`. -/
theorem C2_GetService_unregistered {U σ : Type} (c : DefaultClient U σ) (n : String) :
    ((c.GetService n).2 ≠ none ↔ ¬ registered c n) ∧
      (¬ registered c n →
        c.GetService n = (none, some (Err.text (n ++ " does not exist")))) := by
  have key : mapGet c.Services n = none ↔ ¬ registered c n := by
    cases h : c.Services with
    | none => simp [registered, h, mapGet]
    | some es => simpa [registered, h] using mapGet_eq_none_iff es n
  constructor
  · rw [← key]
    cases hg : mapGet c.Services n <;> simp [DefaultClient.GetService, hg]
  · intro h
    simp [DefaultClient.GetService, key.2 h]

/-- C2 at the client on which nothing was registered and the name `profile`. -/
theorem C2_GetService_unregistered_witness :
    scenario.blank.GetService "profile" = (none, some (Err.text "profile does not exist")) :=
  (C2_GetService_unregistered scenario.blank "profile").2 (by decide)

/-! ## The response checker -/

theorem CheckResponse_fst {U : Type} (r : Response U) (b : Body) :
    (CheckResponse r b).1 =
      if 200 ≤ r.StatusCode ∧ r.StatusCode ≤ 299 then none else some (Err.errorResponse r) := by
  unfold CheckResponse
  split <;> rfl

/-- C3 (amended): for every response, with or without its request, `CheckResponse`
returns nil exactly for the status codes 200 to 299 and leaves the body alone, and for
every other status code it returns an `ErrorResponse` wrapping the response itself; when
the response carries its request, the text of `Error()` is `fail to request: `, the
method, the URL, `: ` and the status code in decimal. -/
theorem C3_CheckResponse_status {U β : Type} (E : Std U β) (r : Response U) (b : Body) :
    ((CheckResponse r b).1 = none ↔ 200 ≤ r.StatusCode ∧ r.StatusCode ≤ 299) ∧
      (CheckResponse r b).2 = b ∧
      (¬ (200 ≤ r.StatusCode ∧ r.StatusCode ≤ 299) →
        (CheckResponse r b).1 = some (Err.errorResponse r) ∧
          ∀ q : Request U, r.Request = some q →
            Err.Error E (Err.errorResponse r) =
              Outcome.ret ("fail to request: " ++ q.Method ++ " " ++ fmtURL E q.URL ++ ": "
                ++ fmtD r.StatusCode)) := by
  refine ⟨?_, ?_, ?_⟩
  · rw [CheckResponse_fst]
    by_cases h : 200 ≤ r.StatusCode ∧ r.StatusCode ≤ 299 <;> simp [h]
  · unfold CheckResponse
    split <;> rfl
  · intro h
    refine ⟨by rw [CheckResponse_fst, if_neg h], ?_⟩
    intro q hq
    simp [Err.Error, ErrorResponse.Error, hq]

/-- C3 at the 404 response to the stats request, which carries its request, and at the
500 response without a request, which is wrapped all the same. -/
theorem C3_CheckResponse_status_witness :
    ((CheckResponse scenario.notFound scenario.emptyBody).1
        = some (Err.errorResponse scenario.notFound) ∧
      Err.Error sample.std (Err.errorResponse scenario.notFound) =
        Outcome.ret ("fail to request: " ++ "GET" ++ " "
          ++ fmtURL sample.std scenario.statsRequest.URL ++ ": " ++ fmtD 404)) ∧
      (CheckResponse scenario.bare500 scenario.emptyBody).1
        = some (Err.errorResponse scenario.bare500) :=
  ⟨(fun h => ⟨h.1, h.2 scenario.statsRequest rfl⟩)
      ((C3_CheckResponse_status sample.std scenario.notFound scenario.emptyBody).2.2
        (by decide)),
    ((C3_CheckResponse_status sample.std scenario.bare500 scenario.emptyBody).2.2
      (by decide)).1⟩

/-- C3 as stated fails: for a response with status 500 and no request, `CheckResponse`
returns an `ErrorResponse` whose `Error()` panics and so yields no text. -/
theorem C3_counterexample :
    (CheckResponse scenario.bare500 scenario.emptyBody).1
        = some (Err.errorResponse scenario.bare500) ∧
      Err.Error sample.std (Err.errorResponse scenario.bare500) = Outcome.panic nilDeref ∧
      ¬ ∃ text, Err.Error sample.std (Err.errorResponse scenario.bare500) = Outcome.ret text := by
  refine ⟨by decide, rfl, ?_⟩
  rintro ⟨text, h⟩
  exact Outcome.noConfusion h

/-! ## The checker of a client -/

/-- C4, the code at a failing input: `SetResponseChecker` installs `bone.CheckResponse`
whatever checker it is given; after `SetResponseChecker acceptAll` the field and `Do`
reject the 404 response that `acceptAll` accepts. -/
theorem C4_SetResponseChecker_ignores_argument :
    (∀ (c : DefaultClient sample.URL fortnite.ProfileService)
        (f : Option (ResponseChecker sample.URL)),
        (c.SetResponseChecker f).CheckResponse = some bone.CheckResponse) ∧
      (scenario.acceptAll scenario.notFound scenario.emptyBody).1 = none ∧
      ((scenario.blank.SetResponseChecker (some scenario.acceptAll)).CheckResponse.map
          (fun rc => (rc scenario.notFound scenario.emptyBody).1))
        = some (some (Err.errorResponse scenario.notFound)) ∧
      (({ scenario.blank with client := some (scenario.answer404 scenario.emptyBody) }
          : DefaultClient sample.URL fortnite.ProfileService).SetResponseChecker
            (some scenario.acceptAll)).Do scenario.statsRequest (none : Option (ResponseDecode Nat)) none
        = Outcome.ret
            { response := some scenario.notFound,
              err := some (Err.errorResponse scenario.notFound),
              body := some { scenario.emptyBody with closed := 1 }, v := none, decodes := 0 } := by
  refine ⟨fun _ _ => rfl, rfl, by decide, by decide⟩

/-! ## The dispatcher -/

/-- C7: when the transport returns a response and the checker reports an error on it,
`Do` returns that response and exactly that error, closes the body once, calls no
decoder (the decoder may even be nil) and leaves the destination as it was, whatever
`Close` returns. -/
theorem C7_Do_checker_error {U δ : Type} (client : HTTPClient U) (req : Request U)
    (decode : Option (ResponseDecode δ)) (rc : ResponseChecker U) (v : Option δ)
    (resp : Response U) (b0 b1 : Body) (e : Err U)
    (ht : client req = Except.ok (resp, b0)) (hc : rc resp b0 = (some e, b1)) :
    Do (some client) req decode (some rc) v =
      Outcome.ret
        { response := some resp, err := some e,
          body := some { b1 with closed := b1.closed + 1 }, v := v, decodes := 0 } := by
  simp [Do, DoRequestWithClient, ht, hc, deferredClose, Body.Close]

/-- C7 at the 404 answer with a body whose `Close` fails: the checker error is kept. -/
theorem C7_Do_checker_error_witness :
    Do (some (scenario.answer404 scenario.failingClose)) scenario.statsRequest
        (some scenario.lengthDecode) (some bone.CheckResponse) (some 7) =
      Outcome.ret
        { response := some scenario.notFound,
          err := some (Err.errorResponse scenario.notFound),
          body := some { scenario.failingClose with closed := scenario.failingClose.closed + 1 },
          v := some 7, decodes := 0 } :=
  C7_Do_checker_error (scenario.answer404 scenario.failingClose) scenario.statsRequest
    (some scenario.lengthDecode) bone.CheckResponse (some 7) scenario.notFound
    scenario.failingClose scenario.failingClose (Err.errorResponse scenario.notFound) rfl
    (by decide)

/-- C8 (amended): when the transport returns a response, the checker accepts it and no
destination is supplied, `Do` calls no decoder, closes the body once and returns the
response together with the result of `Close`: no error when `Close` succeeds, and the
error of `Close` otherwise. -/
theorem C8_Do_no_destination {U δ : Type} (client : HTTPClient U) (req : Request U)
    (decode : Option (ResponseDecode δ)) (rc : ResponseChecker U)
    (resp : Response U) (b0 b1 : Body)
    (ht : client req = Except.ok (resp, b0)) (hc : rc resp b0 = (none, b1)) :
    Do (some client) req decode (some rc) none =
      Outcome.ret
        { response := some resp, err := b1.closeErr.map Err.text,
          body := some { b1 with closed := b1.closed + 1 }, v := none, decodes := 0 } ∧
      (b1.closeErr = none →
        Do (some client) req decode (some rc) none =
          Outcome.ret
            { response := some resp, err := none,
              body := some { b1 with closed := b1.closed + 1 }, v := none, decodes := 0 }) := by
  have h : Do (some client) req decode (some rc) none =
      Outcome.ret
        { response := some resp, err := b1.closeErr.map Err.text,
          body := some { b1 with closed := b1.closed + 1 }, v := none, decodes := 0 } := by
    simp [Do, DoRequestWithClient, ht, hc, deferredClose, Body.Close]
  refine ⟨h, fun hn => ?_⟩
  rw [h, hn]
  rfl

/-- C8 at a 200 answer whose body closes without error. -/
theorem C8_Do_no_destination_witness :
    Do (some (scenario.answer200 scenario.emptyBody)) scenario.statsRequest
        (some scenario.lengthDecode) (some bone.CheckResponse) none =
      Outcome.ret
        { response := some { StatusCode := 200, Request := some scenario.statsRequest },
          err := none,
          body := some { scenario.emptyBody with closed := scenario.emptyBody.closed + 1 },
          v := none, decodes := 0 } :=
  (C8_Do_no_destination (scenario.answer200 scenario.emptyBody) scenario.statsRequest
    (some scenario.lengthDecode) bone.CheckResponse
    { StatusCode := 200, Request := some scenario.statsRequest }
    scenario.emptyBody scenario.emptyBody rfl (by decide)).2 rfl

/-- C8 as stated fails: the checker accepts the 200 response and no destination is
supplied, yet `Do` returns the error of `Close`. -/
theorem C8_counterexample :
    (bone.CheckResponse { StatusCode := 200, Request := some scenario.statsRequest }
        scenario.failingClose).1 = (none : Option (Err sample.URL)) ∧
      Do (some (scenario.answer200 scenario.failingClose)) scenario.statsRequest
          (some scenario.lengthDecode) (some bone.CheckResponse) none =
        Outcome.ret
          { response := some { StatusCode := 200, Request := some scenario.statsRequest },
            err := some (Err.text "close failed"),
            body := some { scenario.failingClose with closed := 1 },
            v := none, decodes := 0 } := by
  refine ⟨by decide, by decide⟩

/-! ## The request builder -/

theorem NewRequest_Header {U σ β : Type} (E : Std U β) (c : DefaultClient U σ)
    (method urlStr : String) (headers : Option (List (String × String))) (body : Option β)
    (req : Request U)
    (hs : c.NewRequest E method urlStr headers body = Outcome.ret (some req, none)) :
    req.Header = applyHeaders E c headers [] := by
  unfold DefaultClient.NewRequest at hs
  cases hp : E.parse urlStr with
  | error e => simp [hp] at hs
  | ok rel =>
    cases hr : ResolveReference E c.BaseURL rel with
    | panic m => simp [hp, hr] at hs
    | ret u =>
      cases hn : E.newRequest method (E.urlString u) with
      | error e =>
        cases body with
        | none => simp [hp, hr, hn] at hs
        | some b => cases he : E.encode b <;> simp [hp, hr, hn, he] at hs
      | ok mu =>
        cases body with
        | none =>
          simp only [hp, hr, hn, Outcome.ret.injEq, Prod.mk.injEq, Option.some.injEq,
            and_true] at hs
          rw [← hs]
        | some b =>
          cases he : E.encode b with
          | error e => simp [hp, hr, hn, he] at hs
          | ok buf =>
            simp only [hp, hr, hn, he, Outcome.ret.injEq, Prod.mk.injEq, Option.some.injEq,
              and_true] at hs
            rw [← hs]

theorem headerValues_headerSet {U β : Type} (E : Std U β) (h : Header) (k v : String) :
    headerValues E (headerSet E h k v) k = some [v] := by
  simp [headerValues, headerSet, mapGet_mapSet]

theorem headerValues_headerSet_ne {U β : Type} (E : Std U β) (h : Header) (k k1 v : String)
    (hne : E.canonicalMIMEHeaderKey k ≠ E.canonicalMIMEHeaderKey k1) :
    headerValues E (headerSet E h k v) k1 = headerValues E h k1 := by
  simp only [headerValues, headerSet]
  exact mapGet_mapSet_ne h _ _ _ hne

theorem headerGet_of_headerValues {U β : Type} (E : Std U β) (h : Header) (k v : String)
    (hv : headerValues E h k = some [v]) : headerGet E h k = v := by
  simp [headerGet, hv]

theorem headerValues_foldl {U β : Type} (E : Std U β) (k v : String) :
    ∀ (kvs : List (String × String)) (h : Header),
      (∀ k1 v1, (k1, v1) ∈ kvs →
        E.canonicalMIMEHeaderKey k1 = E.canonicalMIMEHeaderKey k → v1 = v) →
      ((k, v) ∈ kvs ∨ headerValues E h k = some [v]) →
      headerValues E (kvs.foldl (fun h kv => headerSet E h kv.1 kv.2) h) k = some [v] := by
  intro kvs
  induction kvs with
  | nil =>
    intro h _ hm
    rcases hm with hm | hm
    · simp at hm
    · simpa using hm
  | cons kv kvs ih =>
    intro h hu hm
    rw [List.foldl_cons]
    apply ih
    · intro k1 v1 h1 hc
      exact hu k1 v1 (List.mem_cons_of_mem _ h1) hc
    · by_cases hc : E.canonicalMIMEHeaderKey kv.1 = E.canonicalMIMEHeaderKey k
      · right
        have hv : kv.2 = v := hu kv.1 kv.2 (List.mem_cons_self _ _) hc
        simp only [headerValues, headerSet, hc, hv]
        exact mapGet_mapSet _ _ _
      · rcases hm with hm | hm
        · rcases List.mem_cons.1 hm with hm | hm
          · exact absurd (by rw [← hm]) hc
          · exact Or.inl hm
        · right
          rw [headerValues_headerSet_ne E h kv.1 k kv.2 hc]
          exact hm

/-- C5: on a successful `NewRequest` without caller-supplied headers (a nil or an empty
map), the request carries the single header `User-Agent` when the token name or the token
is empty, and the header named `TokenKey` has exactly the value `Token` when both are
set. -/
theorem C5_NewRequest_auth_opt_in {U σ β : Type} (E : Std U β) (c : DefaultClient U σ)
    (method urlStr : String) (headers : Option (List (String × String))) (body : Option β)
    (req : Request U)
    (hs : c.NewRequest E method urlStr headers body = Outcome.ret (some req, none))
    (hh : headers = none ∨ headers = some []) :
    ((c.TokenKey = "" ∨ c.Token = "") →
        req.Header = [(E.canonicalMIMEHeaderKey "User-Agent", [c.UserAgent])]) ∧
      ((c.TokenKey ≠ "" ∧ c.Token ≠ "") →
        headerValues E req.Header c.TokenKey = some [c.Token] ∧
          headerGet E req.Header c.TokenKey = c.Token) := by
  have hH := NewRequest_Header E c method urlStr headers body req hs
  have hA : applyHeaders E c headers [] =
      if c.TokenKey ≠ "" ∧ c.Token ≠ "" then
        headerSet E (headerSet E [] "User-Agent" c.UserAgent) c.TokenKey c.Token
      else headerSet E [] "User-Agent" c.UserAgent := by
    rcases hh with hh | hh <;> subst hh <;> simp [applyHeaders]
  rw [hH, hA]
  constructor
  · intro h
    have hn : ¬ (c.TokenKey ≠ "" ∧ c.Token ≠ "") := by
      rintro ⟨h1, h2⟩
      rcases h with h | h
      · exact h1 h
      · exact h2 h
    rw [if_neg hn]
    simp [headerSet, mapSet]
  · intro h
    rw [if_pos h]
    have hv := headerValues_headerSet E (headerSet E [] "User-Agent" c.UserAgent)
      c.TokenKey c.Token
    exact ⟨hv, headerGet_of_headerValues E _ _ _ hv⟩

/-- C5 at the fortnite client with an empty token: only `User-Agent` is set. -/
theorem C5_NewRequest_auth_opt_in_witness :
    (scenario.statsRequestWith [("User-Agent", ["go-fortnite/0.0.1"])]).Header =
      [(sample.std.canonicalMIMEHeaderKey "User-Agent", [(scenario.tracker none "").UserAgent])] :=
  (C5_NewRequest_auth_opt_in sample.std (scenario.tracker none "") "GET" "profile/pc/ninja"
    none none (scenario.statsRequestWith [("User-Agent", ["go-fortnite/0.0.1"])])
    (by decide) (Or.inl rfl)).1 (Or.inr rfl)

/-- C6 (amended): on a successful `NewRequest`, an entry `(k, v)` of the caller's headers
is the value of header `k` of the request whenever every entry of the map whose key has
the same canonical header name carries the value `v` (so whenever no other key of the map
has that canonical name); this holds for `User-Agent` and for `TokenKey` too, whose
defaults are written first. -/
theorem C6_NewRequest_caller_headers {U σ β : Type} (E : Std U β) (c : DefaultClient U σ)
    (method urlStr : String) (kvs : List (String × String)) (body : Option β)
    (req : Request U) (k v : String)
    (hs : c.NewRequest E method urlStr (some kvs) body = Outcome.ret (some req, none))
    (hm : (k, v) ∈ kvs)
    (hu : ∀ k1 v1, (k1, v1) ∈ kvs →
      E.canonicalMIMEHeaderKey k1 = E.canonicalMIMEHeaderKey k → v1 = v) :
    headerValues E req.Header k = some [v] ∧ headerGet E req.Header k = v := by
  have hH := NewRequest_Header E c method urlStr (some kvs) body req hs
  have hv : headerValues E req.Header k = some [v] := by
    rw [hH]
    simp only [applyHeaders]
    exact headerValues_foldl E k v kvs _ hu (Or.inl hm)
  exact ⟨hv, headerGet_of_headerValues E _ _ _ hv⟩

/-- C6 at the fortnite client: the caller replaces the user agent and the token. -/
theorem C6_NewRequest_caller_headers_witness :
    headerValues sample.std
        (scenario.statsRequestWith [("Trn-Api-Key", ["other"]), ("User-Agent", ["mine"])]).Header
        "TRN-Api-Key" = some ["other"] ∧
      headerGet sample.std
        (scenario.statsRequestWith [("Trn-Api-Key", ["other"]), ("User-Agent", ["mine"])]).Header
        "TRN-Api-Key" = "other" :=
  C6_NewRequest_caller_headers sample.std (scenario.tracker none "abc123") "GET"
    "profile/pc/ninja" [("User-Agent", "mine"), ("TRN-Api-Key", "other")] none
    (scenario.statsRequestWith [("Trn-Api-Key", ["other"]), ("User-Agent", ["mine"])])
    "TRN-Api-Key" "other" (by decide) (by decide)
    (by
      intro k1 v1 h hc
      simp only [List.mem_cons, Prod.mk.injEq, List.mem_singleton] at h
      rcases h with ⟨rfl, rfl⟩ | ⟨rfl, rfl⟩ | h
      · exact absurd hc (by decide)
      · rfl
      · simp at h)

/-- C6 as stated fails: the headers map with the entries `x-a: 1` and `X-A: 2` has two
keys with one canonical name; in either order of the `range` the request is built and one
of the two entries is not the value of its header. -/
theorem C6_counterexample :
    ((scenario.tracker none "abc123").NewRequest sample.std "GET" "profile/pc/ninja"
          (some [("x-a", "1"), ("X-A", "2")]) none =
        Outcome.ret (some (scenario.statsRequestWith
          [("X-A", ["2"]), ("Trn-Api-Key", ["abc123"]), ("User-Agent", ["go-fortnite/0.0.1"])]),
          none) ∧
      headerGet sample.std
        [("X-A", ["2"]), ("Trn-Api-Key", ["abc123"]), ("User-Agent", ["go-fortnite/0.0.1"])]
        "x-a" = "2") ∧
    ((scenario.tracker none "abc123").NewRequest sample.std "GET" "profile/pc/ninja"
          (some [("X-A", "2"), ("x-a", "1")]) none =
        Outcome.ret (some (scenario.statsRequestWith
          [("X-A", ["1"]), ("Trn-Api-Key", ["abc123"]), ("User-Agent", ["go-fortnite/0.0.1"])]),
          none) ∧
      headerGet sample.std
        [("X-A", ["1"]), ("Trn-Api-Key", ["abc123"]), ("User-Agent", ["go-fortnite/0.0.1"])]
        "X-A" = "1") := by
  refine ⟨⟨by decide, by decide⟩, ⟨by decide, by decide⟩⟩

/-! ## The unset base URL -/

/-- C10 (amended): on a client whose `BaseURL` is nil, `NewRequest` returns no request
and the parse error when the path does not parse; when the path parses to a reference
without a scheme it does not return at all but panics with a nil pointer dereference;
and when the reference has a scheme the base URL is not read, so the call does what it
does on a client with a base URL. -/
theorem C10_NewRequest_nil_BaseURL {U σ β : Type} (E : Std U β) (c : DefaultClient U σ)
    (method urlStr : String) (headers : Option (List (String × String))) (body : Option β)
    (hb : c.BaseURL = none) :
    (∀ e, E.parse urlStr = Except.error e →
        c.NewRequest E method urlStr headers body = Outcome.ret (none, some (Err.text e))) ∧
      (∀ rel, E.parse urlStr = Except.ok rel → E.scheme rel = "" →
        c.NewRequest E method urlStr headers body = Outcome.panic nilDeref) ∧
      (∀ rel, E.parse urlStr = Except.ok rel → E.scheme rel ≠ "" → ∀ base : U,
        c.NewRequest E method urlStr headers body =
          ({ c with BaseURL := some base }).NewRequest E method urlStr headers body) := by
  refine ⟨?_, ?_, ?_⟩
  · intro e he
    simp [DefaultClient.NewRequest, he]
  · intro rel hr hsch
    simp [DefaultClient.NewRequest, hr, ResolveReference, hsch, hb]
  · intro rel hr hsch base
    simp [DefaultClient.NewRequest, hr, ResolveReference, hsch, applyHeaders]

/-- C10 at the client on which nothing was set and the path `profile/pc/ninja`. -/
theorem C10_NewRequest_nil_BaseURL_witness :
    scenario.blank.NewRequest sample.std "GET" "profile/pc/ninja" none (none : Option Unit)
      = Outcome.panic nilDeref :=
  (C10_NewRequest_nil_BaseURL sample.std scenario.blank "GET" "profile/pc/ninja" none none
    rfl).2.1 { Scheme := "", Host := "", Path := "profile/pc/ninja" } rfl rfl

/-- C10 as stated fails: with a nil `BaseURL`, `NewRequest` on the relative path
`profile/pc/ninja` returns nothing (it panics), and on an absolute URL it returns a
request and a nil error. -/
theorem C10_counterexample :
    scenario.blank.BaseURL = none ∧
      scenario.blank.NewRequest sample.std "GET" "profile/pc/ninja" none (none : Option Unit)
        = Outcome.panic nilDeref ∧
      scenario.blank.NewRequest sample.std "GET"
          "https://api.fortnitetracker.com/v1/profile/pc/ninja" none (none : Option Unit)
        = Outcome.ret (some (scenario.statsRequestWith [("User-Agent", [""])]), none) := by
  refine ⟨rfl, by decide, by decide⟩

/-! ## The example binding end to end -/

/-- C9, the code at the failing input: `fortnite.New(httpClient, "abc123")` succeeds with
`bone.CheckResponse` installed, because `SetResponseChecker` drops
`fortnite.CheckResponse`; when the transport answers 404 with the body
the JSON member `message: not found`, the error of `Stats(pc, ninja)` reads
`fail to request: GET https://api.fortnitetracker.com/v1/profile/pc/ninja: 404`, which
contains `404` and not `not found`.  With `fortnite.CheckResponse` in the field the text
contains both. -/
theorem C9_Stats_error_text :
    (fortnite.New sample.std scenario.jsonMessage (some scenario.server404) "abc123").2 = none ∧
      ((fortnite.New sample.std scenario.jsonMessage (some scenario.server404) "abc123").1.map
        (fun c => c.CheckResponse.map (fun rc => (rc scenario.notFound scenario.notFoundBody).1)))
        = some (some (some (Err.errorResponse scenario.notFound))) ∧
      scenario.statsErrorText (scenario.tracker (some scenario.server404) "abc123")
        = some "fail to request: GET https://api.fortnitetracker.com/v1/profile/pc/ninja: 404" ∧
      scenario.contains
        "fail to request: GET https://api.fortnitetracker.com/v1/profile/pc/ninja: 404" "404"
        = true ∧
      scenario.contains
        "fail to request: GET https://api.fortnitetracker.com/v1/profile/pc/ninja: 404"
        "not found" = false ∧
      scenario.statsErrorText
          { scenario.tracker (some scenario.server404) "abc123" with
            CheckResponse := some (fortnite.CheckResponse scenario.jsonMessage) }
        = some "GET https://api.fortnitetracker.com/v1/profile/pc/ninja: 404 not found" := by
  refine ⟨by decide, by decide, by decide, by decide, by decide, by decide⟩

end bone
